import Mathlib

/-!
Shallow embedding of the WayFinder map-screen / omnibox-directions UI state
machine (src/src/screens/map-screen/map-screen.component.tsx and the
omnibox-directions component), together with proofs of the specified
properties of its event handlers.

External collaborators (the geometry check `isPointInPolygon`, the building
registry `Buildings`) are passed as explicit parameters, matching the spec's
description of them as injected external services / read-only reference data.
-/

namespace WayFinder

/-- A latitude/longitude coordinate (`Location` in types/main). -/
structure Location where
  latitude : Int
  longitude : Int
deriving DecidableEq, Repr

/-- A building polygon, as consumed by the external geometry check. -/
abbrev Polygon := List Location

/-- Modelled from the spec: `BuildingId` (the building registry's key type)
is an enumeration not present under src/; identified with `Nat`. -/
abbrev BuildingId := Nat

/-- A building of the static registry: id, display name, bounding polygon
and metadata lists (spec §3 data model). -/
structure Building where
  id : BuildingId
  displayName : String
  boundingBox : Polygon
  departments : List String
  services : List String
deriving DecidableEq, Repr

/-- Modelled from the spec: `MarkerLocation` (types/main, not under src/) is
"either a Building reference or a free-form point-of-interest/search-result
record with \x7bdisplayName, coordinates\x7d", modelled as the tagged variant
the spec's design notes ask for. -/
inductive MarkerLocation where
  | building (b : Building)
  | point (displayName : String) (coordinates : Location)
deriving DecidableEq, Repr

/-- Display name of a marker location (`.displayName` in the TS code). -/
def MarkerLocation.displayName : MarkerLocation → String
  | .building b => b.displayName
  | .point name _ => name

/-- Modelled from the spec: `buildingToMarker` (src/constants, not under
src/) wraps a building as the `MarkerLocation` trip endpoint referring to
that building. -/
def buildingToMarker (b : Building) : MarkerLocation :=
  MarkerLocation.building b

/-- Modelled from the spec: the Utility-service contract
`locationToSearchResult(label, label, coordinates) -> MarkerLocation`
produces a free-form labelled point carrying the coordinates. -/
def locationToSearchResult (displayName : String) (_secondLabel : String)
    (coordinates : Location) : MarkerLocation :=
  MarkerLocation.point displayName coordinates

/-- Modelled from the spec: the generic current-location label constant
(src/styles, not under src/). -/
def CURRENT_LOCATION_DISPLAY_TEXT : String := "Current location"

/-- Modelled from the spec: the in-progress placeholder shown while the
current-location lookup is pending (src/styles, not under src/). -/
def FETCHING_CURRENT_LOCATION_DISPLAY_TEXT : String :=
  "Fetching current location ..."

/-- The travel-state enumeration (types/main): NONE, PLANNING, TRAVELLING. -/
inductive TravelState where
  | NONE
  | PLANNING
  | TRAVELLING
deriving DecidableEq, Repr

/-- The map-screen state slots relevant to the travel-planning flow
(map-screen.component.tsx lines 45-62). -/
structure MapState where
  showBuildingInfo : Bool
  tappedBuilding : Option BuildingId
  currentLocation : Option Location
  endLocation : Option MarkerLocation
  startLocation : Option MarkerLocation
  endLocationFocused : Bool
  travelState : TravelState
  startLocationDisplay : String
deriving DecidableEq, Repr

/-- Initial map-screen state: no building tapped, no endpoints, end field
focused, travel state NONE, empty start display. -/
def initState : MapState where
  showBuildingInfo := false
  tappedBuilding := none
  currentLocation := none
  endLocation := none
  startLocation := none
  endLocationFocused := true
  travelState := TravelState.NONE
  startLocationDisplay := ""

/-- `setBuildingMarkerLocation`: in PLANNING, set the focused endpoint to
the given building (end field if `endLocationFocused`, else start field);
outside PLANNING do nothing. -/
def setBuildingMarkerLocation (building : Option Building) (s : MapState) :
    MapState :=
  if s.travelState = TravelState.PLANNING then
    if s.endLocationFocused then
      { s with endLocation := Option.map MarkerLocation.building building }
    else
      { s with startLocation := Option.map MarkerLocation.building building }
  else s

/-- `onBuildingTap`: show the info panel when travel state is NONE, record
the tapped building's id, and route the building to the focused endpoint
via `setBuildingMarkerLocation`. -/
def onBuildingTap (b : Building) (s : MapState) : MapState :=
  let s1 := if s.travelState = TravelState.NONE then
      { s with showBuildingInfo := true }
    else s
  let s2 := { s1 with tappedBuilding := some b.id }
  setBuildingMarkerLocation (some b) s2

/-- `onClosePanel`: hide the info panel and clear the tapped building. -/
def onClosePanel (s : MapState) : MapState :=
  { s with showBuildingInfo := false, tappedBuilding := none }

/-- The building-information panel is rendered only when the travel state
is NONE (map-screen render guard) and its visibility flag is set. -/
def buildingInfoPanelVisible (s : MapState) : Bool :=
  s.travelState = TravelState.NONE && s.showBuildingInfo

/-- The omnibox-directions component is rendered exactly when the travel
state is PLANNING or TRAVELLING (map-screen render branch). -/
def omniboxShown (s : MapState) : Bool :=
  s.travelState = TravelState.PLANNING ||
    s.travelState = TravelState.TRAVELLING

/-- Synchronous part of `setUserCurrentLocation`: place the fetching
placeholder in the start display and dispatch the asynchronous lookup. -/
def setUserCurrentLocationSync (s : MapState) : MapState :=
  { s with startLocationDisplay := FETCHING_CURRENT_LOCATION_DISPLAY_TEXT }

/-- `setStartLocationBuilding`: find the first registry building whose
polygon contains the coordinates (per the external geometry check `pip`);
if found, tap it and set the start location to its marker, otherwise set
the start location to the generic current-location point. -/
def setStartLocationBuilding (pip : Location → Polygon → Bool)
    (buildings : List Building) (coordinates : Location) (s : MapState) :
    MapState :=
  match buildings.find? (fun building => pip coordinates building.boundingBox) with
  | some isInBuilding =>
      let s1 := onBuildingTap isInBuilding s
      { s1 with startLocation := some (buildingToMarker isInBuilding) }
  | none =>
      { s with startLocation := some (locationToSearchResult
          CURRENT_LOCATION_DISPLAY_TEXT CURRENT_LOCATION_DISPLAY_TEXT
          coordinates) }

/-- Resolution of the asynchronous current-location lookup
(`setUserCurrentLocation`'s then/catch): on success record the coordinates
and resolve the start endpoint; on failure only clear the start display. -/
def locationLookupResolve (pip : Location → Polygon → Bool)
    (buildings : List Building) (result : Except Unit Location)
    (s : MapState) : MapState :=
  match result with
  | Except.ok coords =>
      setStartLocationBuilding pip buildings coords
        { s with currentLocation := some coords }
  | Except.error _ => { s with startLocationDisplay := "" }

/-- `onPOIMarkerPress`: when the end field is focused, enter PLANNING (also
starting a current-location lookup if the travel state was NONE) and set
the end location to the POI; otherwise set the start location to it. -/
def onPOIMarkerPress (poi : Option MarkerLocation) (s : MapState) :
    MapState :=
  if s.endLocationFocused then
    let s1 := { s with travelState := TravelState.PLANNING }
    let s2 := if s.travelState = TravelState.NONE then
        setUserCurrentLocationSync s1
      else s1
    { s2 with endLocation := poi }
  else
    { s with startLocation := poi }

/-- The omnibox back-arrow handler: clear both endpoints, refocus the end
field and return the travel state to NONE. -/
def backArrowPress (s : MapState) : MapState :=
  { s with endLocation := none, startLocation := none,
           endLocationFocused := true, travelState := TravelState.NONE }

/-- An autocomplete selection while the omnibox is shown: the `setLocation`
prop is `setEndLocation` when the end field is focused, else
`setStartLocation`. -/
def autocompleteSelect (r : MarkerLocation) (s : MapState) : MapState :=
  if s.endLocationFocused then { s with endLocation := some r }
  else { s with startLocation := some r }

/-- Modelled from the spec: the Search component (shown in NONE, not under
src/) escalates a destination selection by setting the end location,
entering PLANNING and starting the current-location lookup. -/
def searchSelectDestination (r : MarkerLocation) (s : MapState) : MapState :=
  if s.travelState = TravelState.NONE then
    setUserCurrentLocationSync
      { s with endLocation := some r, travelState := TravelState.PLANNING }
  else s

/-- Modelled from the spec: the StartTravel affordance (not under src/) is
shown only when both endpoints are set in PLANNING and confirms the
transition to TRAVELLING. -/
def startTravelConfirm (s : MapState) : MapState :=
  if s.startLocation.isSome && s.endLocation.isSome &&
      s.travelState = TravelState.PLANNING then
    { s with travelState := TravelState.TRAVELLING }
  else s

/-- The user events driving the map-screen state machine. -/
inductive Event where
  | buildingTap (b : Building)
  | poiTap (poi : Option MarkerLocation)
  | backArrow
  | closePanel
  | focusStartField
  | focusEndField
  | autocomplete (r : MarkerLocation)
  | searchSelect (r : MarkerLocation)
  | startTravel
  | locationResolved (result : Except Unit Location)

/-- One step of the map-screen state machine. Handlers living inside the
omnibox (back arrow, field focus, autocomplete) can only fire while the
omnibox is rendered, i.e. while the travel state is PLANNING/TRAVELLING. -/
def stepEvent (pip : Location → Polygon → Bool) (buildings : List Building) :
    Event → MapState → MapState
  | Event.buildingTap b => onBuildingTap b
  | Event.poiTap poi => onPOIMarkerPress poi
  | Event.backArrow => fun s =>
      if omniboxShown s then backArrowPress s else s
  | Event.closePanel => onClosePanel
  | Event.focusStartField => fun s =>
      if omniboxShown s then { s with endLocationFocused := false } else s
  | Event.focusEndField => fun s =>
      if omniboxShown s then { s with endLocationFocused := true } else s
  | Event.autocomplete r => fun s =>
      if omniboxShown s then autocompleteSelect r s else s
  | Event.searchSelect r => searchSelectDestination r
  | Event.startTravel => startTravelConfirm
  | Event.locationResolved result => locationLookupResolve pip buildings result

/-- States reachable from the initial map-screen state by user events. -/
inductive Reachable (pip : Location → Polygon → Bool)
    (buildings : List Building) : MapState → Prop
  | init : Reachable pip buildings initState
  | step {s : MapState} (e : Event) :
      Reachable pip buildings s →
      Reachable pip buildings (stepEvent pip buildings e s)

/-! ## Omnibox-directions local state -/

/-- A point in time, as produced by the platform clock (`Date` in the TS
code, modelled by its epoch value). -/
abbrev Date := Nat

/-- The omnibox-directions component's local state slots
(omnibox-directions component, `useState` declarations). -/
structure OmniboxState where
  endLocationDisplay : String
  startLocationSearchResults : Option (List MarkerLocation)
  endLocationSearchResults : Option (List MarkerLocation)
  date : Date
  dateIsNow : Bool
  showTimePicker : Bool
deriving DecidableEq, Repr

/-- Mounting the omnibox-directions component: the initial
`endLocationDisplay` is read as `endLocation.displayName` with no null
guard, so mounting with a cleared end endpoint dereferences null (`none`
here); `now` is the clock value captured for the initial `date`. -/
def omniboxInit (endLocation : Option MarkerLocation) (now : Date) :
    Option OmniboxState :=
  match endLocation with
  | none => none
  | some m => some
      { endLocationDisplay := m.displayName
        startLocationSearchResults := none
        endLocationSearchResults := none
        date := now
        dateIsNow := true
        showTimePicker := false }

/-- `onDateChange`: the time-picker change handler. The picker stays open
only on iOS; a null picked date resets the departure time to the current
clock value and marks it as "now", a real pick stores it and clears the
flag. -/
def onDateChange (platformIsIOS : Bool) (now : Date)
    (pickedDate : Option Date) (s : OmniboxState) : OmniboxState :=
  let s1 := { s with showTimePicker := platformIsIOS }
  match pickedDate with
  | none => { s1 with date := now, dateIsNow := true }
  | some d => { s1 with date := d, dateIsNow := false }

/-- Modelled from the spec: the Utility-service contract
`showPickedTime(date, isNow) -> displayString` renders "now" while the
is-now flag holds, otherwise the picked time. -/
def showPickedTime (date : Date) (isNow : Bool) : String :=
  if isNow then "now" else toString date

/-! ## Travel-mode switcher -/

/-- Modelled from the spec: `TravelMode` (types/main, not under src/) is a
small closed set; the omnibox source references `ACCESSIBLE` and
`WALKING`. -/
inductive TravelMode where
  | CAR
  | ACCESSIBLE
  | WALKING
  | BUS
  | SHUTTLE
deriving DecidableEq, Repr

/-- The five buttons of the omnibox travel-mode switcher row, in render
order. -/
inductive TravelModeButton where
  | car
  | accessible
  | walking
  | bus
  | shuttle
deriving DecidableEq, Repr

/-- Pressing a travel-mode switcher button: the value passed upward via
`setTravelMode`, if any. In the source only the accessible and walking
buttons carry a press handler; the car, bus and shuttle buttons have
none. -/
def travelModeButtonPress : TravelModeButton → Option TravelMode
  | TravelModeButton.accessible => some TravelMode.ACCESSIBLE
  | TravelModeButton.walking => some TravelMode.WALKING
  | _ => none

/-- Whether a switcher button renders with the selected-style highlight for
the given current travel mode: only the accessible and walking buttons
carry the conditional style. -/
def travelModeButtonHighlighted (travelMode : TravelMode) :
    TravelModeButton → Bool
  | TravelModeButton.accessible => travelMode = TravelMode.ACCESSIBLE
  | TravelModeButton.walking => travelMode = TravelMode.WALKING
  | _ => false

/-! ## Concrete test fixtures

A concrete instance of the external geometry check (axis-aligned rectangle
containment, the polygons being stored corner lists) and sample registry
buildings, used to instantiate the theorems below at closed inputs. -/

/-- Concrete geometry-check instance: containment in the axis-aligned
rectangle spanned by the first and third stored corners. -/
def rectContains (p : Location) (poly : Polygon) : Bool :=
  match poly with
  | [a, _, c, _] =>
      (min a.latitude c.latitude ≤ p.latitude &&
        p.latitude ≤ max a.latitude c.latitude) &&
      (min a.longitude c.longitude ≤ p.longitude &&
        p.longitude ≤ max a.longitude c.longitude)
  | _ => false

/-- Sample building H with rectangular footprint [0,4]×[0,4]. -/
def bldH : Building :=
  { id := 0, displayName := "Hall Building"
    boundingBox := [⟨0, 0⟩, ⟨0, 4⟩, ⟨4, 4⟩, ⟨4, 0⟩]
    departments := [], services := [] }

/-- Sample building MB with rectangular footprint [2,6]×[2,6], overlapping
building H on [2,4]×[2,4]. -/
def bldMB : Building :=
  { id := 1, displayName := "Molson Building"
    boundingBox := [⟨2, 2⟩, ⟨2, 6⟩, ⟨6, 6⟩, ⟨6, 2⟩]
    departments := [], services := [] }

/-- A PLANNING state with both endpoints set and the end field focused. -/
def planningBothSet : MapState :=
  { initState with
      travelState := TravelState.PLANNING
      startLocation := some (buildingToMarker bldH)
      endLocation := some (buildingToMarker bldMB)
      endLocationFocused := true }

/-- A TRAVELLING state with both endpoints set and the end field focused. -/
def travellingBothSet : MapState :=
  { initState with
      travelState := TravelState.TRAVELLING
      startLocation := some (buildingToMarker bldH)
      endLocation := some (buildingToMarker bldMB)
      endLocationFocused := true }

/-! ## Claim theorems -/

/-- C2: pressing the back arrow while the omnibox is shown (travel state
PLANNING or TRAVELLING), regardless of which endpoints are set, always
yields startLocation = none, endLocation = none, endLocationFocused = true
and travelState = NONE. -/
theorem C2_backArrow_resets (pip : Location → Polygon → Bool)
    (buildings : List Building) (s : MapState)
    (h : omniboxShown s = true) :
    (stepEvent pip buildings Event.backArrow s).startLocation = none ∧
    (stepEvent pip buildings Event.backArrow s).endLocation = none ∧
    (stepEvent pip buildings Event.backArrow s).endLocationFocused = true ∧
    (stepEvent pip buildings Event.backArrow s).travelState =
      TravelState.NONE := by
  simp [stepEvent, h, backArrowPress]

/-- Witness for C2 at the PLANNING state with both endpoints set. -/
theorem C2_backArrow_resets_witness :
    omniboxShown planningBothSet = true ∧
    ((stepEvent rectContains [bldH, bldMB] Event.backArrow
        planningBothSet).startLocation = none ∧
     (stepEvent rectContains [bldH, bldMB] Event.backArrow
        planningBothSet).endLocation = none ∧
     (stepEvent rectContains [bldH, bldMB] Event.backArrow
        planningBothSet).endLocationFocused = true ∧
     (stepEvent rectContains [bldH, bldMB] Event.backArrow
        planningBothSet).travelState = TravelState.NONE) :=
  ⟨by decide, C2_backArrow_resets rectContains [bldH, bldMB] planningBothSet
      (by decide)⟩

/-- C5: when the asynchronous current-location lookup fails, the resulting
state differs from the prior state only in the start-field display text,
which becomes the empty string; in particular currentLocation and
startLocation are unchanged and no other slot is touched. -/
theorem C5_location_failure_only_clears_display
    (pip : Location → Polygon → Bool) (buildings : List Building)
    (e : Unit) (s : MapState) :
    locationLookupResolve pip buildings (Except.error e) s =
      { s with startLocationDisplay := "" } :=
  rfl

/-- C7: a null time pick sets dateIsNow to true, the displayed departure
time then reads "now", and the operation is idempotent: a second null pick
(at the same clock reading) leaves the state unchanged. -/
theorem C7_null_time_pick (platformIsIOS : Bool) (now : Date)
    (s : OmniboxState) :
    (onDateChange platformIsIOS now none s).dateIsNow = true ∧
    showPickedTime (onDateChange platformIsIOS now none s).date
      (onDateChange platformIsIOS now none s).dateIsNow = "now" ∧
    onDateChange platformIsIOS now none
        (onDateChange platformIsIOS now none s) =
      onDateChange platformIsIOS now none s :=
  ⟨rfl, rfl, rfl⟩

/-- C9: mounting the omnibox succeeds exactly when the end endpoint is set
(the initial display reads endLocation.displayName with no null guard), and
the PLANNING state produced by a null POI selection from the initial state
has a cleared end endpoint on which mounting dereferences null. -/
theorem C9_omnibox_mount_requires_endLocation (now : Date) :
    (∀ e : Option MarkerLocation, (omniboxInit e now).isSome = e.isSome) ∧
    (∀ m : MarkerLocation, ∃ s : OmniboxState,
      omniboxInit (some m) now = some s ∧
      s.endLocationDisplay = m.displayName) ∧
    ((onPOIMarkerPress none initState).travelState = TravelState.PLANNING ∧
     omniboxShown (onPOIMarkerPress none initState) = true ∧
     (onPOIMarkerPress none initState).endLocation = none ∧
     omniboxInit (onPOIMarkerPress none initState).endLocation now = none) := by
  refine ⟨fun e => ?_, fun m => ⟨_, rfl, rfl⟩, rfl, rfl, rfl, rfl⟩
  cases e <;> rfl

/-- C10: tapping a building while the travel state is PLANNING still
updates tappedBuilding to the tapped building's id, even though the
building-information panel is not visible. -/
theorem C10_planning_tap_updates_tappedBuilding (b : Building)
    (s : MapState) (h : s.travelState = TravelState.PLANNING) :
    (onBuildingTap b s).tappedBuilding = some b.id ∧
    buildingInfoPanelVisible (onBuildingTap b s) = false := by
  unfold onBuildingTap setBuildingMarkerLocation buildingInfoPanelVisible
  simp [h]
  split <;> simp

/-- Witness for C10 at a concrete PLANNING state. -/
theorem C10_planning_tap_updates_tappedBuilding_witness :
    (onBuildingTap bldH planningBothSet).tappedBuilding = some bldH.id ∧
    buildingInfoPanelVisible (onBuildingTap bldH planningBothSet) = false :=
  C10_planning_tap_updates_tappedBuilding bldH planningBothSet (by decide)

/-- C4 counterexample: pressing the car button of the travel-mode switcher
passes nothing upward via setTravelMode (it carries no press handler), and
likewise for the bus and shuttle buttons; so not every mode in the closed
set is selectable as claimed. -/
theorem C4_counterexample :
    travelModeButtonPress TravelModeButton.car = none ∧
    ¬ travelModeButtonPress TravelModeButton.car = some TravelMode.CAR ∧
    travelModeButtonPress TravelModeButton.bus = none ∧
    travelModeButtonPress TravelModeButton.shuttle = none := by
  refine ⟨rfl, ?_, rfl, rfl⟩
  decide

/-- C4 (amended): only the accessible and walking buttons of the
travel-mode switcher pass a selection upward via setTravelMode and carry
the selected-state highlight; the car, bus and shuttle buttons have no
press handler and are never highlighted. -/
theorem C4_travel_mode_switcher :
    travelModeButtonPress TravelModeButton.accessible =
      some TravelMode.ACCESSIBLE ∧
    travelModeButtonPress TravelModeButton.walking =
      some TravelMode.WALKING ∧
    travelModeButtonPress TravelModeButton.car = none ∧
    travelModeButtonPress TravelModeButton.bus = none ∧
    travelModeButtonPress TravelModeButton.shuttle = none ∧
    (∀ m : TravelMode,
      (travelModeButtonHighlighted m TravelModeButton.accessible = true ↔
        m = TravelMode.ACCESSIBLE) ∧
      (travelModeButtonHighlighted m TravelModeButton.walking = true ↔
        m = TravelMode.WALKING) ∧
      travelModeButtonHighlighted m TravelModeButton.car = false ∧
      travelModeButtonHighlighted m TravelModeButton.bus = false ∧
      travelModeButtonHighlighted m TravelModeButton.shuttle = false) := by
  refine ⟨rfl, rfl, rfl, rfl, rfl, fun m => ?_⟩
  cases m <;> refine ⟨by decide, by decide, rfl, rfl, rfl⟩

/-- C3: tapping a building with travel state NONE records its id and makes
the information panel visible; tapping with travel state PLANNING sets the
focused endpoint (end if endLocationFocused, else start) to the building,
leaves the other endpoint alone, and does not show the panel. -/
theorem C3_building_tap_routing (b : Building) (s : MapState) :
    (s.travelState = TravelState.NONE →
      (onBuildingTap b s).tappedBuilding = some b.id ∧
      buildingInfoPanelVisible (onBuildingTap b s) = true) ∧
    (s.travelState = TravelState.PLANNING →
      buildingInfoPanelVisible (onBuildingTap b s) = false ∧
      (s.endLocationFocused = true →
        (onBuildingTap b s).endLocation = some (MarkerLocation.building b) ∧
        (onBuildingTap b s).startLocation = s.startLocation) ∧
      (s.endLocationFocused = false →
        (onBuildingTap b s).startLocation = some (MarkerLocation.building b) ∧
        (onBuildingTap b s).endLocation = s.endLocation)) := by
  constructor
  · intro h
    unfold onBuildingTap setBuildingMarkerLocation buildingInfoPanelVisible
    simp [h]
  · intro h
    unfold onBuildingTap setBuildingMarkerLocation buildingInfoPanelVisible
    cases hf : s.endLocationFocused <;> simp [h, hf]

/-- Witness for C3: a tap on building H from the initial (NONE) state and
from a PLANNING state with the end field focused. -/
theorem C3_building_tap_routing_witness :
    ((onBuildingTap bldH initState).tappedBuilding = some bldH.id ∧
     buildingInfoPanelVisible (onBuildingTap bldH initState) = true) ∧
    (buildingInfoPanelVisible (onBuildingTap bldH planningBothSet) = false ∧
     (onBuildingTap bldH planningBothSet).endLocation =
       some (MarkerLocation.building bldH) ∧
     (onBuildingTap bldH planningBothSet).startLocation =
       planningBothSet.startLocation) :=
  ⟨(C3_building_tap_routing bldH initState).1 rfl,
   ⟨((C3_building_tap_routing bldH planningBothSet).2 rfl).1,
    ((C3_building_tap_routing bldH planningBothSet).2 rfl).2.1 rfl⟩⟩

/-- C6 counterexample: in a TRAVELLING state (omnibox shown) with the end
field focused, tapping building H changes neither endpoint — in particular
the selection is not applied to the end endpoint as claimed. -/
theorem C6_counterexample :
    omniboxShown travellingBothSet = true ∧
    travellingBothSet.endLocationFocused = true ∧
    (onBuildingTap bldH travellingBothSet).endLocation =
      travellingBothSet.endLocation ∧
    ¬ (onBuildingTap bldH travellingBothSet).endLocation =
        some (MarkerLocation.building bldH) := by
  refine ⟨rfl, rfl, rfl, ?_⟩
  decide

/-- C6 (amended): while the omnibox is shown, autocomplete selections and
POI taps are applied to the end endpoint exactly when endLocationFocused
is true and to the start endpoint exactly when it is false, never touching
the other endpoint; building taps follow the same routing but only while
travel state is PLANNING — a building tap while TRAVELLING modifies
neither endpoint. -/
theorem C6_selection_routing (s : MapState) (r : MarkerLocation)
    (p : Option MarkerLocation) (b : Building)
    (h : omniboxShown s = true) :
    (s.endLocationFocused = true →
      (autocompleteSelect r s).endLocation = some r ∧
      (autocompleteSelect r s).startLocation = s.startLocation ∧
      (onPOIMarkerPress p s).endLocation = p ∧
      (onPOIMarkerPress p s).startLocation = s.startLocation ∧
      (s.travelState = TravelState.PLANNING →
        (onBuildingTap b s).endLocation = some (MarkerLocation.building b) ∧
        (onBuildingTap b s).startLocation = s.startLocation) ∧
      (s.travelState = TravelState.TRAVELLING →
        (onBuildingTap b s).endLocation = s.endLocation ∧
        (onBuildingTap b s).startLocation = s.startLocation)) ∧
    (s.endLocationFocused = false →
      (autocompleteSelect r s).startLocation = some r ∧
      (autocompleteSelect r s).endLocation = s.endLocation ∧
      (onPOIMarkerPress p s).startLocation = p ∧
      (onPOIMarkerPress p s).endLocation = s.endLocation ∧
      (s.travelState = TravelState.PLANNING →
        (onBuildingTap b s).startLocation =
          some (MarkerLocation.building b) ∧
        (onBuildingTap b s).endLocation = s.endLocation) ∧
      (s.travelState = TravelState.TRAVELLING →
        (onBuildingTap b s).startLocation = s.startLocation ∧
        (onBuildingTap b s).endLocation = s.endLocation)) := by
  have hns : ¬ s.travelState = TravelState.NONE := by
    intro hn
    rw [omniboxShown, hn] at h
    simp at h
  constructor <;> intro hf <;>
    refine ⟨?_, ?_, ?_, ?_, fun hp => ?_, fun ht => ?_⟩ <;>
    simp_all [autocompleteSelect, onPOIMarkerPress, onBuildingTap,
      setBuildingMarkerLocation, setUserCurrentLocationSync]

/-- Witness for C6 (amended): routing at the PLANNING state with the end
field focused. -/
theorem C6_selection_routing_witness :
    (autocompleteSelect (buildingToMarker bldH)
        planningBothSet).endLocation = some (buildingToMarker bldH) ∧
    (autocompleteSelect (buildingToMarker bldH)
        planningBothSet).startLocation = planningBothSet.startLocation ∧
    (onBuildingTap bldH planningBothSet).endLocation =
      some (MarkerLocation.building bldH) :=
  let t := C6_selection_routing planningBothSet (buildingToMarker bldH)
    none bldH (by decide)
  ⟨(t.1 rfl).1, (t.1 rfl).2.1, ((t.1 rfl).2.2.2.2.1 rfl).1⟩

/-- A point lying on the overlap of the two sample footprints. -/
def locBoth : Location := ⟨3, 3⟩

/-- A point outside both sample footprints. -/
def locOutside : Location := ⟨9, 9⟩

/-- A point inside building H's footprint only. -/
def locInH : Location := ⟨1, 1⟩

/-- C1 counterexample: the coordinate (3,3) lies inside the polygons of
both sample buildings (so not inside exactly one), yet
setStartLocationBuilding resolves the start endpoint to the first matching
building rather than to the generic current-location marker the claim
requires in this case. -/
theorem C1_counterexample :
    ¬ (([bldH, bldMB].filter
        (fun b => rectContains locBoth b.boundingBox)).length = 1) ∧
    (setStartLocationBuilding rectContains [bldH, bldMB] locBoth
        initState).startLocation = some (buildingToMarker bldH) ∧
    ¬ (setStartLocationBuilding rectContains [bldH, bldMB] locBoth
        initState).startLocation =
      some (locationToSearchResult CURRENT_LOCATION_DISPLAY_TEXT
        CURRENT_LOCATION_DISPLAY_TEXT locBoth) := by
  refine ⟨by decide, rfl, by decide⟩

/-- The first element of a list satisfying the predicate, written as an
append split, is what `find?` returns. -/
lemma find?_append_first {α : Type} (p : α → Bool) (l1 l2 : List α)
    (b : α) (h1 : ∀ x ∈ l1, p x = false) (hb : p b = true) :
    (l1 ++ b :: l2).find? p = some b := by
  induction l1 with
  | nil => simp [List.find?_cons, hb]
  | cons a t ih =>
      have ha : p a = false := h1 a (List.mem_cons_self a t)
      simp only [List.cons_append, List.find?_cons, ha]
      exact ih fun x hx => h1 x (List.mem_cons_of_mem a hx)

/-- C1 (amended): if the coordinate lies inside no known building's
polygon, the start endpoint resolves to the generic current-location
marker carrying it; if it lies inside at least one building's polygon, the
start endpoint resolves to the first matching building in registry order
(so in particular, to the unique containing building when there is exactly
one). -/
theorem C1_start_location_resolution (pip : Location → Polygon → Bool)
    (buildings : List Building) (coords : Location) (s : MapState) :
    ((∀ b ∈ buildings, pip coords b.boundingBox = false) →
      (setStartLocationBuilding pip buildings coords s).startLocation =
        some (locationToSearchResult CURRENT_LOCATION_DISPLAY_TEXT
          CURRENT_LOCATION_DISPLAY_TEXT coords)) ∧
    (∀ l1 b l2, buildings = l1 ++ b :: l2 →
      (∀ b' ∈ l1, pip coords b'.boundingBox = false) →
      pip coords b.boundingBox = true →
      (setStartLocationBuilding pip buildings coords s).startLocation =
        some (buildingToMarker b)) := by
  constructor
  · intro hall
    unfold setStartLocationBuilding
    have hnone : buildings.find?
        (fun building => pip coords building.boundingBox) = none := by
      rw [List.find?_eq_none]
      intro x hx
      simp [hall x hx]
    rw [hnone]
  · intro l1 b l2 hsplit h1 hb
    subst hsplit
    unfold setStartLocationBuilding
    rw [find?_append_first _ l1 l2 b h1 hb]

/-- Witness for C1 (amended): a coordinate outside every sample building
resolves to the generic marker; a coordinate inside building H resolves to
building H. -/
theorem C1_start_location_resolution_witness :
    (setStartLocationBuilding rectContains [bldH, bldMB] locOutside
        initState).startLocation =
      some (locationToSearchResult CURRENT_LOCATION_DISPLAY_TEXT
        CURRENT_LOCATION_DISPLAY_TEXT locOutside) ∧
    (setStartLocationBuilding rectContains [bldH, bldMB] locInH
        initState).startLocation = some (buildingToMarker bldH) :=
  ⟨(C1_start_location_resolution rectContains [bldH, bldMB] locOutside
      initState).1 (by decide),
   (C1_start_location_resolution rectContains [bldH, bldMB] locInH
      initState).2 [] bldH [bldMB] rfl (by decide) (by decide)⟩

/-! ## The reachability invariant -/

/-- Tapping a building never changes the travel state or the focused
field. -/
lemma onBuildingTap_frame (b : Building) (s : MapState) :
    (onBuildingTap b s).travelState = s.travelState ∧
    (onBuildingTap b s).endLocationFocused = s.endLocationFocused := by
  cases h1 : s.travelState <;> cases h2 : s.endLocationFocused <;>
    simp [onBuildingTap, setBuildingMarkerLocation, h1, h2]

/-- Resolving the start endpoint from coordinates never changes the travel
state or the focused field. -/
lemma setStartLocationBuilding_frame (pip : Location → Polygon → Bool)
    (buildings : List Building) (coords : Location) (s : MapState) :
    (setStartLocationBuilding pip buildings coords s).travelState =
      s.travelState ∧
    (setStartLocationBuilding pip buildings coords s).endLocationFocused =
      s.endLocationFocused := by
  unfold setStartLocationBuilding
  cases hfind : buildings.find?
      (fun building => pip coords building.boundingBox) with
  | none => exact ⟨rfl, rfl⟩
  | some b => exact ⟨(onBuildingTap_frame b s).1, (onBuildingTap_frame b s).2⟩

/-- While the omnibox is shown the travel state is not NONE. -/
lemma omniboxShown_ne_none {s : MapState} (h : omniboxShown s = true) :
    ¬ s.travelState = TravelState.NONE := by
  intro hn
  rw [omniboxShown, hn] at h
  simp at h

/-- C8: in every state reachable from the initial map-screen state by user
events, travel state NONE implies that the end field is focused. -/
theorem C8_none_implies_end_focused (pip : Location → Polygon → Bool)
    (buildings : List Building) (s : MapState)
    (h : Reachable pip buildings s) :
    s.travelState = TravelState.NONE → s.endLocationFocused = true := by
  induction h with
  | init => intro _; rfl
  | @step s e _ ih =>
      cases e with
      | buildingTap b =>
          simp only [stepEvent]
          intro hn
          have hfr := onBuildingTap_frame b s
          rw [hfr.1] at hn
          rw [hfr.2]
          exact ih hn
      | poiTap poi =>
          cases hf : s.endLocationFocused with
          | true =>
              simp only [stepEvent, onPOIMarkerPress, hf, if_true]
              split <;> simp [setUserCurrentLocationSync]
          | false =>
              simp only [stepEvent, onPOIMarkerPress, hf]
              intro hn
              simp only [Bool.false_eq_true, if_false] at hn ⊢
              exact absurd (ih hn) (by simp [hf])
      | backArrow =>
          simp only [stepEvent]
          split
          · intro _; rfl
          · exact ih
      | closePanel => exact ih
      | focusStartField =>
          simp only [stepEvent]
          split
          · rename_i hshown
            intro hn
            exact absurd hn (omniboxShown_ne_none hshown)
          · exact ih
      | focusEndField =>
          simp only [stepEvent]
          split
          · intro _; rfl
          · exact ih
      | autocomplete r =>
          simp only [stepEvent]
          split
          · unfold autocompleteSelect
            split <;> exact ih
          · exact ih
      | searchSelect r =>
          simp only [stepEvent, searchSelectDestination]
          split
          · intro hn
            simp [setUserCurrentLocationSync] at hn
          · exact ih
      | startTravel =>
          simp only [stepEvent, startTravelConfirm]
          split
          · intro hn
            simp at hn
          · exact ih
      | locationResolved res =>
          cases res with
          | error e => exact ih
          | ok coords =>
              have hfr := setStartLocationBuilding_frame pip buildings coords
                { s with currentLocation := some coords }
              simp only [stepEvent, locationLookupResolve]
              intro hn
              rw [hfr.1] at hn
              rw [hfr.2]
              exact ih hn

/-- Witness for C8: the invariant instantiated at the initial state, which
is reachable and in travel state NONE. -/
theorem C8_none_implies_end_focused_witness :
    initState.endLocationFocused = true :=
  C8_none_implies_end_focused rectContains [bldH, bldMB] initState
    Reachable.init rfl

end WayFinder
